import Mathlib

/-!
Verification of the open-canvas artifact orchestration engine.

This file gives a shallow embedding, in Lean 4, of the parts of the
open-canvas source that the specification's claims are about:

* the defensive normalization of values read from the reflection memory
  store (`src/agent/reflection/index.ts`, also quoted for
  `generateFollowup`);
* the reflect node's structured-output handling and store update;
* the `formatReflections` prompt block and the prompt template constants;
* the query-router prompt assembly;
* the `streamMessageV2` turn-submission validation in the `useGraph` hook;
* the artifact-persistence effect of the `useGraph` hook;
* the versioned-artifact operations (`appendVersion`, `rewind`).

Values coming from the untyped JavaScript store are modelled by an
inductive `JSVal` mirroring JSON-like runtime values, with JavaScript
truthiness and string coercion made explicit.
-/

namespace OpenCanvas

/-- Runtime JavaScript value, as stored in the (schema-unenforced) memory
store: strings, numbers (integral, which is all the sources produce),
booleans, null, arrays and plain objects. -/
inductive JSVal where
  | str (s : String)
  | num (n : Int)
  | bool (b : Bool)
  | null
  | arr (elems : List JSVal)
  | obj (fields : List (String × JSVal))
deriving Repr

mutual

/-- Equality test on runtime values (structural, as for JSON values). -/
def JSVal.beq : JSVal → JSVal → Bool
  | .str a, .str b => a == b
  | .num a, .num b => a == b
  | .bool a, .bool b => a == b
  | .null, .null => true
  | .arr a, .arr b => JSVal.beqList a b
  | .obj a, .obj b => JSVal.beqFields a b
  | _, _ => false

/-- Elementwise equality of runtime arrays. -/
def JSVal.beqList : List JSVal → List JSVal → Bool
  | [], [] => true
  | x :: xs, y :: ys => JSVal.beq x y && JSVal.beqList xs ys
  | _, _ => false

/-- Fieldwise equality of runtime objects. -/
def JSVal.beqFields : List (String × JSVal) → List (String × JSVal) → Bool
  | [], [] => true
  | (k, v) :: xs, (k', v') :: ys => k == k' && JSVal.beq v v' && JSVal.beqFields xs ys
  | _, _ => false

end

instance : BEq JSVal := ⟨JSVal.beq⟩

/-- JavaScript truthiness: `""`, `0`, `false` and `null` are falsy;
every array and object is truthy. -/
def JSVal.truthy : JSVal → Bool
  | .str s => s ≠ ""
  | .num n => n ≠ 0
  | .bool b => b
  | .null => false
  | .arr _ => true
  | .obj _ => true

/-- Whether `typeof v` is the string `"object"` (true for null, arrays
and objects in JavaScript). -/
def JSVal.typeofObject : JSVal → Bool
  | .null => true
  | .arr _ => true
  | .obj _ => true
  | _ => false

/-- Whether the value is an array, as tested by `Array.isArray`. -/
def JSVal.isArr : JSVal → Bool
  | .arr _ => true
  | _ => false

mutual

/-- JavaScript `String(v)` coercion. Arrays stringify as their elements
joined with commas (null elements become empty); objects stringify as
`[object Object]`. -/
def JSVal.toStr : JSVal → String
  | .str s => s
  | .num n => toString n
  | .bool true => "true"
  | .bool false => "false"
  | .null => "null"
  | .arr elems => JSVal.toStrList elems
  | .obj _ => "[object Object]"

/-- Stringification of a runtime array's elements, comma separated; a
null element renders as the empty string, as in
`Array.prototype.toString`. -/
def JSVal.toStrList : List JSVal → String
  | [] => ""
  | [.null] => ""
  | [v] => JSVal.toStr v
  | .null :: rest => "," ++ JSVal.toStrList rest
  | v :: rest => JSVal.toStr v ++ "," ++ JSVal.toStrList rest

end

/-- Property access `v.name` on a runtime value: a lookup on object
fields, `undefined` (here `none`) on every other value. -/
def JSVal.getField (v : JSVal) (name : String) : Option JSVal :=
  match v with
  | .obj fields => fields.lookup name
  | _ => none

/-- The in-memory `Reflections` record as the nodes actually hold it at
runtime: two lists of runtime values (the TypeScript annotation promises
`string[]`, but stored arrays are passed through unchecked). -/
structure ReflectionsVal where
  styleRules : List JSVal
  content : List JSVal
deriving Repr

instance : BEq ReflectionsVal :=
  ⟨fun a b => a.styleRules == b.styleRules && a.content == b.content⟩

/-- Normalization applied to a value read from the reflection memory
store, embedding `src/agent/reflection/index.ts` lines 31-49 (the same
block appears in `generateFollowup`): start from empty lists; only if
`memories.value` is truthy and `typeof` it is `"object"` are the two
fields examined; a field that is truthy and an array is taken as is, a
field that is truthy and not an array is coerced to the one-element list
of its `String(...)` form, and any other field is left empty. -/
def normalizeStoredReflections (memories : Option JSVal) : ReflectionsVal :=
  let base : ReflectionsVal := { styleRules := [], content := [] }
  match memories with
  | none => base
  | some v =>
    if v.truthy && v.typeofObject then
      let styleRules :=
        match v.getField "styleRules" with
        | some f =>
          if f.truthy then
            match f with
            | .arr elems => elems
            | other => [.str other.toStr]
          else base.styleRules
        | none => base.styleRules
      let content :=
        match v.getField "content" with
        | some f =>
          if f.truthy then
            match f with
            | .arr elems => elems
            | other => [.str other.toStr]
          else base.content
        | none => base.content
      { styleRules := styleRules, content := content }
    else base

/-! ## Artifact data model and versioning -/

/-- One version of the artifact: the tagged union `ArtifactContentV3`
(text variant with `fullMarkdown`, code variant with `language` and
`code`), sharing `index` and `title`. -/
inductive ArtifactContent where
  | text (index : Nat) (title : String) (fullMarkdown : String)
  | code (index : Nat) (title : String) (language : String) (code : String)
deriving Repr, DecidableEq

/-- The version index of a content element. -/
def ArtifactContent.index : ArtifactContent → Nat
  | .text i _ _ => i
  | .code i _ _ _ => i

/-- The same content element with its index reassigned. -/
def ArtifactContent.withIndex (c : ArtifactContent) (i : Nat) : ArtifactContent :=
  match c with
  | .text _ t m => .text i t m
  | .code _ t l cd => .code i t l cd

/-- Whether the element is the text (markdown) variant, as tested by
`isArtifactMarkdownContent`. -/
def ArtifactContent.isTextType : ArtifactContent → Bool
  | .text _ _ _ => true
  | .code _ _ _ _ => false

/-- The body carried by the element: `fullMarkdown` for the text
variant, `code` for the code variant. -/
def ArtifactContent.body : ArtifactContent → String
  | .text _ _ m => m
  | .code _ _ _ cd => cd

/-- The `ArtifactV3` document: the ordered version history and the
pointer to the currently displayed version. -/
structure ArtifactV3 where
  currentIndex : Nat
  contents : List ArtifactContent
deriving Repr, DecidableEq

/-- Lookup of the current content, as in the `useGraph` hook and
`getArtifactContent`: `artifact.contents.find(c => c.index === artifact.currentIndex)`. -/
def getArtifactContent (a : ArtifactV3) : Option ArtifactContent :=
  a.contents.find? (fun c => c.index == a.currentIndex)

/-- Largest version index present in the document (0 when empty). -/
def maxIndex (a : ArtifactV3) : Nat :=
  a.contents.foldl (fun m c => max m c.index) 0

/-- Modelled from the spec: `appendVersion(document, newContent)` — the
function that admits new content into the history is not among the
provided source files, only its effects are specified — assigns
`newContent.index = max(existing indices) + 1`, appends it, and sets
`currentIndex` to the new index. -/
def appendVersion (a : ArtifactV3) (newContent : ArtifactContent) : ArtifactV3 :=
  let newIdx := maxIndex a + 1
  { currentIndex := newIdx
    contents := a.contents ++ [newContent.withIndex newIdx] }

/-- Modelled from the spec: `rewind(document, targetIndex)` — the
version-navigation handler is not among the provided source files — sets
`currentIndex = targetIndex` without truncating `contents`. -/
def rewind (a : ArtifactV3) (targetIndex : Nat) : ArtifactV3 :=
  { a with currentIndex := targetIndex }

/-! ## String manipulation

The TypeScript sources assemble prompts with `template.replace(pattern,
value)`, which replaces the first occurrence of the literal pattern.  We
embed it over `List Char` so that occurrence questions are ordinary list
questions. -/

/-- Worker for `splitAtFirst`: scans the list, accumulating the part
already passed in reverse. -/
def splitAtFirstAux (pat : List Char) (acc : List Char) : List Char → Option (List Char × List Char)
  | [] => if pat.isEmpty then some (acc.reverse, []) else none
  | c :: rest =>
    if pat.isPrefixOf (c :: rest) then some (acc.reverse, (c :: rest).drop pat.length)
    else splitAtFirstAux pat (c :: acc) rest

/-- Splits a character list at the first occurrence of `pat`, returning
the part before and the part after the occurrence, or `none` when `pat`
does not occur.  An empty pattern matches at the front. -/
def splitAtFirst (pat hay : List Char) : Option (List Char × List Char) :=
  splitAtFirstAux pat [] hay

/-- Replacement of the first occurrence of `pat` by `rep` in `hay`; the
list is returned unchanged when `pat` does not occur (the behavior of
JavaScript `String.prototype.replace` with a string pattern). -/
def replaceFirstChars (pat rep hay : List Char) : List Char :=
  match splitAtFirst pat hay with
  | some (pre, post) => pre ++ rep ++ post
  | none => hay

/-- `s.replace(pat, rep)` on strings, first occurrence only. -/
def replaceFirst (s pat rep : String) : String :=
  ⟨replaceFirstChars pat.data rep.data s.data⟩

/-- Substring scan: whether `needle` occurs contiguously in the list. -/
def containsSubB (needle : List Char) : List Char → Bool
  | [] => needle.isEmpty
  | c :: rest => needle.isPrefixOf (c :: rest) || containsSubB needle rest

/-- Whether the window exhibits a definite character mismatch with
`needle` (running out of either list is not a mismatch). -/
def windowBlocked : List Char → List Char → Bool
  | [], _ => false
  | _ :: _, [] => false
  | n :: ns, w :: ws => if n == w then windowBlocked ns ws else true

/-- Every suffix of `pre` exhibits a definite mismatch with `needle`
inside `pre`: no occurrence of `needle` can start inside `pre`, not
even one that would continue past the end of `pre` into appended
text. -/
def safeScan (needle : List Char) : List Char → Bool
  | [] => true
  | c :: rest => windowBlocked needle (c :: rest) && safeScan needle rest

/-! ## Prompt constants

Transcribed verbatim from the source (`prompts.ts` as quoted in the
provided files).  Apostrophes are written with the `\x27` escape; the
string values are identical to the source text. -/

/-- Shared app-context block interpolated into several prompts. -/
def APP_CONTEXT : String :=
  "\n<app-context>\nThe name of the application is \"Open Canvas\". Open Canvas is a web application where users have a chat window and a canvas to display an artifact.\nArtifacts can be any sort of writing content, emails, code, or other creative writing work. Think of artifacts as content, or writing you might find on you might find on a blog, Google doc, or other writing platform.\nUsers only have a single artifact per conversation, however they have the ability to go back and fourth between artifact edits/revisions.\nIf a user asks you to generate something completely different from the current artifact, you may do this, as the UI displaying the artifacts will be updated to show whatever they\x27ve requested.\nEven if the user goes from a \x27text\x27 artifact to a \x27code\x27 artifact.\n</app-context>\n"

/-- The two routing options offered when no artifact exists. -/
def ROUTE_QUERY_OPTIONS_NO_ARTIFACTS : String :=
  "\n- \x27generateArtifact\x27: The user has inputted a request which requires generating an artifact.\n- \x27respondToQuery\x27: The user has asked a question, or has submitted a general message which requires a response, but does not require generating a artifact."

/-- The artifact-snapshot section embedded into the router prompt when
an artifact exists. -/
def CURRENT_ARTIFACT_PROMPT : String :=
  "This artifact is the one the user is currently viewing.\n<artifact>\n{artifact}\n</artifact>"

/-- The placeholder used instead of the snapshot when no artifact
exists. -/
def NO_ARTIFACT_PROMPT : String :=
  "The user has not generated an artifact yet."

/-- The router prompt template (the `${APP_CONTEXT}` interpolation of
the source template literal is performed here by concatenation). -/
def ROUTE_QUERY_PROMPT : String :=
  "You are an assistant tasked with routing the users query based on their most recent message.\nYou should look at this message in isolation and determine where to best route there query.\n\nUse this context about the application and its features when determining where to route to:\n"
    ++ APP_CONTEXT ++
  "\n\nYour options are as follows:\n<options>\n{artifactOptions}\n</options>\n\nA few of the recent messages in the chat history are:\n<recent-messages>\n{recentMessages}\n</recent-messages>\n\n{currentArtifactPrompt}"

/-- The followup-generation prompt template. -/
def FOLLOWUP_ARTIFACT_PROMPT : String :=
  "You are an AI assistant tasked with generating a followup to the artifact the user just generated.\nThe context is you\x27re having a conversation with the user, and you\x27ve just generated an artifact for them. Now you should follow up with a message that notifies them you\x27re done. Make this message creative!\n\nI\x27ve provided some examples of what your followup might be, but please feel free to get creative here!\n\n<examples>\n\n<example id=\"1\">\nHere\x27s a comedic twist on your poem about Bernese Mountain dogs. Let me know if this captures the humor you were aiming for, or if you\x27d like me to adjust anything!\n</example>\n\n<example id=\"2\">\nHere\x27s a poem celebrating the warmth and gentle nature of pandas. Let me know if you\x27d like any adjustments or a different style!\n</example>\n\n<example id=\"3\">\nDoes this capture what you had in mind, or is there a different direction you\x27d like to explore?\n</example>\n\n</examples>\n\nHere is the artifact you generated:\n<artifact>\n{artifactContent}\n</artifact>\n\nYou also have the following reflections on general memories/facts about the user to use when generating your response.\n<reflections>\n{reflections}\n</reflections>\n\nFinally, here is the chat history between you and the user:\n<conversation>\n{conversation}\n</conversation>\n\nThis message should be very short. Never generate more than 2-3 short sentences. Your tone should be somewhat formal, but still friendly. Remember, you\x27re an AI assistant.\n\nDo NOT include any tags, or extra text before or after your response. Do NOT prefix your response. Your response to this message should ONLY contain the description/followup message."

/-- The reflect node's system prompt template. -/
def REFLECT_SYSTEM_PROMPT : String :=
  "You are an expert assistant, and writer. You are tasked with reflecting on the following conversation between a user and an AI assistant.\nYou are also provided with an \x27artifact\x27 the user and assistant worked together on to write. Artifacts can be code, creative writing, emails, or any other form of written content.\n\n<artifact>\n{artifact}\n</artifact>\n\nYou have also previously generated the following reflections about the user. Your reflections are broken down into two categories:\n1. Style Guidelines: These are the style guidelines you have generated for the user. Style guidelines can be anything from writing style, to code style, to design style.\n  They should be general, and apply to the all the users work, including the conversation and artifact generated.\n2. Content: These are general memories, facts, and insights you generate about the user. These can be anything from the users interests, to their goals, to their personality traits.\n  Ensure you think carefully about what goes in here, as the assistant will use these when generating future responses or artifacts for the user.\n  \n<reflections>\n{reflections}\n</reflections>\n\nYour job is to take all of the context and existing reflections and re-generate all. Use these guidelines when generating the new set of reflections:\n\n<system-guidelines>\n- Ensure your reflections are relevant to the conversation and artifact.\n- Remove duplicate reflections, or combine multiple reflections into one if they are duplicating content.\n- Do not remove reflections unless the conversation/artifact clearly demonstrates they should no longer be included.\n  This does NOT mean remove reflections if you see no evidence of them in the conversation/artifact, but instead remove them if the user indicates they are no longer relevant.\n- Keep the rules you list high signal-to-noise - don\x27t include unnecessary reflections, but make sure the ones you do add are descriptive.\n  This is very important. We do NOT want to confuse the assistant in future interactions by having lots and lots of rules and memories.\n- Your reflections should be very descriptive and detailed, ensuring they are clear and will not be misinterpreted.\n- Keep the total number of style and user facts low. It\x27s better to have individual rules be more detailed, than to have many rules that are vague.\n- Do NOT generate rules off of suspicions. Your rules should be based on cold hard facts from the conversation, and changes to the artifact the user has requested.\n  You must be able to provide evidence and sources for each rule you generate if asked, so don\x27t make assumptions.\n- Content reflections should be based on the user\x27s messages, not the generated artifacts. Ensure you follow this rule closely to ensure you do not record things generated by the assistant as facts about the user.\n</system-guidelines>\n\nI\x27ll reiterate one final time: ensure the reflections you generate are kept at a reasonable length, are descriptive, and are based on the conversation and artifact provided.\n\nFinally, use the \x27generate_reflections\x27 tool to generate the new, full list of reflections."

/-- The reflect node's user prompt.  The source shows the opening line;
the `{conversation}` slot it substitutes is reconstructed from the
substitution call (`Modelled from the spec:` the tail of this constant
past the first line is not in the provided sources). -/
def REFLECT_USER_PROMPT : String :=
  "Here is my conversation:\n\n{conversation}"

/-! ## Reflection formatting -/

/-- One element of `Array.prototype.join`: null renders as the empty
string, everything else by its `String(...)` form. -/
def JSVal.joinElem : JSVal → String
  | .null => ""
  | v => v.toStr

/-- `xs.join(sep)` on a runtime array. -/
def joinVals (sep : String) (xs : List JSVal) : String :=
  String.intercalate sep (xs.map JSVal.joinElem)

/-- The style-guidelines section of `formatReflections`
(`src/agent/utils.ts` as quoted): a bulleted list of the rules, or the
explicit placeholder when the list is empty. -/
def reflectionStyleSection (styleRules : List JSVal) : String :=
  "The following is a list of style guidelines previously generated by you:\n<style-guidelines>\n- "
    ++ (if styleRules.length ≠ 0 then joinVals "\n- " styleRules
        else "No style guidelines found.")
    ++ "\n</style-guidelines>"

/-- The user-facts section of `formatReflections`: a bulleted list of
the memories, or the explicit placeholder when the list is empty. -/
def reflectionContentSection (content : List JSVal) : String :=
  "The following is a list of memories/facts you previously generated about the user:\n<user-facts>\n- "
    ++ (if content.length ≠ 0 then joinVals "\n- " content
        else "No memories/facts found.")
    ++ "\n</user-facts>"

/-- `formatReflections(reflections, extra?)`.  The two section strings
are from the source; the selection on `extra` (`Modelled from the spec:`
the dispatch on `onlyStyle`/`onlyContent` and the joining of the two
sections are not shown in the provided sources; they follow the
parameter names, the call sites — `generateFollowup` passes
`{ onlyContent: true }` — and the spec's description of the block as
style section plus user-facts section). -/
def formatReflections (r : ReflectionsVal) (onlyStyle onlyContent : Bool) : String :=
  if onlyStyle then reflectionStyleSection r.styleRules
  else if onlyContent then reflectionContentSection r.content
  else reflectionStyleSection r.styleRules ++ "\n\n" ++ reflectionContentSection r.content

/-! ## Conversation messages and the memory store -/

/-- A role-tagged chat message (`msg.getType()` yields the role tag). -/
structure ChatMsg where
  role : String
  content : String
deriving Repr, DecidableEq

/-- The `<type>content</type>` rendering of the conversation used by the
reflect and followup prompts. -/
def formatConversation (messages : List ChatMsg) : String :=
  String.intercalate "\n\n"
    (messages.map fun m => "<" ++ m.role ++ ">\n" ++ m.content ++ "\n</" ++ m.role ++ ">")

/-- The durable memory store, keyed by (namespace, key); values are
schema-unenforced runtime values. -/
abbrev MemoryStore := List ((List String × String) × JSVal)

/-- `store.get(namespace, key)`. -/
def storeGet (s : MemoryStore) (ns : List String) (key : String) : Option JSVal :=
  s.lookup (ns, key)

/-- `store.put(namespace, key, value)`: a full replace — a later `get`
of the same key sees only the new value. -/
def storePut (s : MemoryStore) (ns : List String) (key : String) (v : JSVal) : MemoryStore :=
  ((ns, key), v) :: s

/-! ## The reflect node -/

/-- A state delta returned by a graph node.  The TypeScript nodes return
partial state objects; `return {}` is the delta with no appended
messages. -/
structure NodeDelta where
  messages : List ChatMsg := []
deriving Repr, DecidableEq

/-- Arguments of the `generate_reflections` tool call, constrained by
the zod schema to exactly two string-array fields. -/
structure ReflectionToolArgs where
  styleRules : List String
  content : List String
deriving Repr, DecidableEq

/-- Result of one run of the reflect node: the memory store after the
run and the node's outcome (a thrown error or the returned delta). -/
structure ReflectOutcome where
  store : MemoryStore
  result : Except String NodeDelta

/-- The system prompt the reflect node sends: the template with the
current artifact body (or the no-artifact placeholder) and the formatted
reflections substituted, as assembled at the head of the node. -/
def reflectSystemPrompt (store : MemoryStore) (assistantId : String)
    (artifact : Option ArtifactV3) : String :=
  let reflections :=
    normalizeStoredReflections (storeGet store ["memories", assistantId] "reflection")
  let currentArtifactContent :=
    match artifact with
    | some a => getArtifactContent a
    | none => none
  let artifactContent := currentArtifactContent.map ArtifactContent.body
  replaceFirst
    (replaceFirst REFLECT_SYSTEM_PROMPT "{artifact}"
      (artifactContent.getD "No artifact found."))
    "{reflections}" (formatReflections reflections false false)

/-- One run of the reflect node (`src/agent/reflection/index.ts`).  The
model invocation itself is external: `modelResult` is the first tool
call of the model response (`result.tool_calls?.[0]`), already
schema-checked by the binding, or `none` when the response carries no
tool call.  The prompts are assembled exactly as in the source; a
missing assistant id or a missing tool call throws, and only the
successful path issues the `store.put`. -/
def reflect (assistantId? : Option String) (store : MemoryStore)
    (artifact : Option ArtifactV3) (messages : List ChatMsg)
    (modelResult : Option ReflectionToolArgs) : ReflectOutcome :=
  match assistantId? with
  | none =>
    { store := store
      result := .error "\x60open_canvas_assistant_id\x60 not found in configurable" }
  | some assistantId =>
    let memoryNamespace := ["memories", assistantId]
    let memoryKey := "reflection"
    let _formattedSystemPrompt := reflectSystemPrompt store assistantId artifact
    let _formattedUserPrompt :=
      replaceFirst REFLECT_USER_PROMPT "{conversation}" (formatConversation messages)
    match modelResult with
    | none => { store := store, result := .error "Reflection tool call failed." }
    | some toolCall =>
      let newMemories : JSVal :=
        .obj [("styleRules", .arr (toolCall.styleRules.map JSVal.str)),
              ("content", .arr (toolCall.content.map JSVal.str))]
      { store := storePut store memoryNamespace memoryKey newMemories
        result := .ok {} }

/-! ## The generate-followup node -/

/-- Result of a successful followup run: the prompt that was sent and
the returned state delta. -/
structure FollowupResult where
  prompt : String
  delta : NodeDelta
deriving Repr, DecidableEq

/-- The prompt the `generateFollowup` node sends: the followup template
with, substituted in source order, the current artifact body (JavaScript
`||`: an absent or empty body falls back to the placeholder), the
content-only reflections block (`formatReflections(reflections,
{ onlyContent: true })`), and the conversation. -/
def followupPrompt (assistantId : String) (store : MemoryStore)
    (artifact : Option ArtifactV3) (messages : List ChatMsg) : String :=
  let memories := storeGet store ["memories", assistantId] "reflection"
  let reflections := normalizeStoredReflections memories
  let memoriesAsString := formatReflections reflections false true
  let currentArtifactContent :=
    match artifact with
    | some a => getArtifactContent a
    | none => none
  let artifactContent := (currentArtifactContent.map ArtifactContent.body).getD ""
  replaceFirst
    (replaceFirst
      (replaceFirst FOLLOWUP_ARTIFACT_PROMPT "{artifactContent}"
        (if artifactContent == "" then "No artifacts generated yet." else artifactContent))
      "{reflections}" memoriesAsString)
    "{conversation}" (formatConversation messages)

/-- One run of the `generateFollowup` node.  The model invocation is
external: `modelResponse` is the reply message it returns; the node
appends exactly that reply to the conversation. -/
def generateFollowup (assistantId? : Option String) (store : MemoryStore)
    (artifact : Option ArtifactV3) (messages : List ChatMsg)
    (modelResponse : ChatMsg) : Except String FollowupResult :=
  match assistantId? with
  | none => .error "\x60assistant_id\x60 not found in configurable"
  | some assistantId =>
    .ok { prompt := followupPrompt assistantId store artifact messages
          delta := { messages := [modelResponse] } }

/-! ## The query router -/

/-- The router's decision: the two classifier intents. -/
inductive RouteDecision where
  | generateArtifact
  | respondToQuery
deriving Repr, DecidableEq

/-- Modelled from the spec: the options text used when an artifact
exists — the constant is not among the provided source files; the spec
fixes the same two intents, with the snapshot carried separately. -/
def ROUTE_QUERY_OPTIONS_HAS_ARTIFACTS : String :=
  "\n- \x27generateArtifact\x27: The user has inputted a request which requires generating a new artifact.\n- \x27respondToQuery\x27: The user has asked a question, or has submitted a general message which requires a response, but does not require generating or rewriting the artifact."

/-- Modelled from the spec: the router node that assembles the routing
prompt is not among the provided source files; the prompt constants are.
The prompt is built from the template with the options description, the
artifact-snapshot section — only if an artifact exists, otherwise the
no-artifact placeholder — and the recent messages substituted. -/
def buildRouterPrompt (recentMessages : String) (artifact : Option String) : String :=
  let artifactOptions :=
    match artifact with
    | some _ => ROUTE_QUERY_OPTIONS_HAS_ARTIFACTS
    | none => ROUTE_QUERY_OPTIONS_NO_ARTIFACTS
  let currentArtifactPrompt :=
    match artifact with
    | some body => replaceFirst CURRENT_ARTIFACT_PROMPT "{artifact}" body
    | none => NO_ARTIFACT_PROMPT
  replaceFirst
    (replaceFirst
      (replaceFirst ROUTE_QUERY_PROMPT "{artifactOptions}" artifactOptions)
      "{currentArtifactPrompt}" currentArtifactPrompt)
    "{recentMessages}" recentMessages

/-! ## Turn submission: `streamMessageV2` -/

/-- The caller-facing turn-submission input (`GraphInput` merged over
`DEFAULT_INPUTS`): the directive-bearing fields, each possibly
undefined.  Highlight payloads are kept opaque as strings. -/
structure GraphInput where
  highlightedCode : Option String := none
  highlightedText : Option String := none
  next : Option String := none
  language : Option String := none
  artifactLength : Option String := none
  regenerateWithEmojis : Option Bool := none
  readingLevel : Option String := none
  addComments : Option Bool := none
  addLogs : Option Bool := none
  fixBugs : Option Bool := none
  portLanguage : Option String := none
  customQuickActionId : Option String := none
deriving Repr, DecidableEq

/-- The merged input actually checked: `{...DEFAULT_INPUTS, artifact,
...params, ...(selectedBlocks && { highlightedText: selectedBlocks })}`
— the params over the all-undefined defaults, with `highlightedText`
overridden by the current text selection when one exists. -/
def effectiveInput (params : GraphInput) (selectedBlocks : Option String) : GraphInput :=
  { params with
    highlightedText :=
      match selectedBlocks with
      | some blocks => some blocks
      | none => params.highlightedText }

/-- The `fieldsToCheck` list of `streamMessageV2`: whether each of the
eleven directive-bearing fields is defined. -/
def fieldsToCheck (input : GraphInput) : List Bool :=
  [input.highlightedCode.isSome, input.highlightedText.isSome,
   input.language.isSome, input.artifactLength.isSome,
   input.regenerateWithEmojis.isSome, input.readingLevel.isSome,
   input.addComments.isSome, input.addLogs.isSome, input.fixBugs.isSome,
   input.portLanguage.isSome, input.customQuickActionId.isSome]

/-- `fieldsToCheck.filter((field) => field !== undefined).length`. -/
def countDefinedFields (input : GraphInput) : Nat :=
  (fieldsToCheck input).count true

/-- Outcome of the validation prefix of `streamMessageV2`: either an
early return with a destructive toast (before the API client is used
and before any message/artifact state is touched), or the dispatch of
the run with the merged input. -/
inductive StreamOutcome where
  | rejected (description : String)
  | dispatched (input : GraphInput) (artifact : Option ArtifactV3)
deriving Repr, DecidableEq

/-- The validation prefix of `streamMessageV2` (`useGraph` hook): a
missing thread id, a missing assistant id, or two or more defined
directive fields each cause an early `return` with an error toast; only
otherwise is the run dispatched. -/
def streamMessageV2 (threadId assistantId : Option String)
    (artifact : Option ArtifactV3) (selectedBlocks : Option String)
    (params : GraphInput) : StreamOutcome :=
  match threadId with
  | none => .rejected "Thread ID not found"
  | some _ =>
    match assistantId with
    | none => .rejected "Assistant ID not found"
    | some _ =>
      let input := effectiveInput params selectedBlocks
      if 2 ≤ countDefinedFields input then
        .rejected "Can not use multiple fields (quick actions, highlights, etc.) at once. Please try again."
      else
        .dispatched input artifact

/-- Number of model-invocation calls the outcome gives rise to: an early
return makes none (the early returns precede the creation of the
streaming run); the dispatched run makes at least one, counted here as
one. -/
def modelInvocations : StreamOutcome → Nat
  | .rejected _ => 0
  | .dispatched _ _ => 1

/-- Whether the outcome goes on to mutate the message list or artifact
state: every `setMessages`/`setArtifact` call of `streamMessageV2` lies
after the validation prefix, on the dispatched path. -/
def mutatesConversationState : StreamOutcome → Bool
  | .rejected _ => false
  | .dispatched _ _ => true

/-! ## The artifact-persistence effect -/

/-- The `useGraph` hook state read by the persistence effect. -/
structure GraphEffectState where
  messages : List ChatMsg
  artifact : Option ArtifactV3
  threadId : Option String
  updateRenderedArtifactRequired : Bool
  threadSwitched : Bool
  isStreaming : Bool
  lastSavedMatches : Bool
deriving Repr, DecidableEq

/-- What the effect decides: nothing, or handing the artifact to the
debounced durable-write function. -/
inductive PersistAction where
  | noWrite
  | scheduleWrite (artifact : ArtifactV3) (threadId : String)
deriving Repr, DecidableEq

/-- The guard of the persistence effect that suppresses writes of a
freshly initialized empty artifact:
`(contents.length === 1 && contents[0].type === "text" && !contents[0].fullMarkdown) || (contents[0].type === "code" && !contents[0].code)`. -/
def emptyArtifactGuard (a : ArtifactV3) : Bool :=
  match a.contents.head? with
  | none => false
  | some c0 =>
    (a.contents.length == 1 && c0.isTextType && c0.body == "")
      || (c0.isTextType == false && c0.body == "")

/-- The state-change-triggered persistence effect of the `useGraph` hook
(`useEffect` on `[artifact]`): the chain of early returns, then the
debounced write when the last saved artifact does not match. -/
def artifactPersistEffect (s : GraphEffectState) : PersistAction :=
  match s.messages, s.artifact, s.threadId with
  | [], _, _ => .noWrite
  | _ :: _, none, _ => .noWrite
  | _ :: _, some _, none => .noWrite
  | _ :: _, some art, some threadId =>
    if s.updateRenderedArtifactRequired || s.threadSwitched || s.isStreaming then
      .noWrite
    else
      match art.contents.find? (fun c => c.index == art.currentIndex) with
      | none => .noWrite
      | some _ =>
        if emptyArtifactGuard art then .noWrite
        else if !s.lastSavedMatches then .scheduleWrite art threadId
        else .noWrite

/-! ## Helper lemmas -/

set_option maxRecDepth 10000

theorem windowBlocked_blocks {needle w : List Char} (h : windowBlocked needle w = true)
    (ext : List Char) : ¬ needle <+: (w ++ ext) := by
  induction needle generalizing w with
  | nil => simp [windowBlocked] at h
  | cons n ns ih =>
    cases w with
    | nil => simp [windowBlocked] at h
    | cons c cs =>
      rw [windowBlocked] at h
      intro hpre
      rw [List.cons_append] at hpre
      have hnc := (List.cons_prefix_cons.mp hpre).1
      rw [if_pos (by exact beq_iff_eq.mpr hnc)] at h
      exact ih h (List.cons_prefix_cons.mp hpre).2

theorem containsSubB_false_sound {needle l : List Char}
    (h : containsSubB needle l = false) : ¬ needle <:+: l := by
  induction l with
  | nil =>
    rw [containsSubB] at h
    intro hinf
    rw [List.infix_nil] at hinf
    simp [hinf] at h
  | cons c rest ih =>
    rw [containsSubB, Bool.or_eq_false_iff] at h
    intro hinf
    rcases List.infix_cons_iff.mp hinf with hpre | hinf'
    · rw [← List.isPrefixOf_iff_prefix] at hpre
      simp [hpre] at h
    · exact ih h.2 hinf'

theorem containsSubB_true_sound {needle l : List Char}
    (h : containsSubB needle l = true) : needle <:+: l := by
  induction l with
  | nil =>
    rw [containsSubB] at h
    simp_all
  | cons c rest ih =>
    rw [containsSubB, Bool.or_eq_true] at h
    rcases h with hpre | hrest
    · exact (List.isPrefixOf_iff_prefix.mp hpre).isInfix
    · exact List.infix_cons_iff.mpr (Or.inr (ih hrest))

theorem not_infix_mid_append {needle : List Char} {h : Char}
    (hhead : needle.head? = some h) {mid a : List Char}
    (hmid : mid.all (fun c => c != h) = true) (ha : ¬ needle <:+: a) :
    ¬ needle <:+: (mid ++ a) := by
  induction mid with
  | nil => simpa using ha
  | cons c cs ih =>
    rw [List.all_cons, Bool.and_eq_true] at hmid
    intro hinf
    rw [List.cons_append] at hinf
    rcases List.infix_cons_iff.mp hinf with hpre | hinf'
    · cases needle with
      | nil => simp at hhead
      | cons n ns =>
        have hn : n = h := by simpa using hhead
        have hc : n = c := (List.cons_prefix_cons.mp hpre).1
        rw [hn] at hc
        simp [← hc] at hmid
    · exact ih hmid.2 hinf'

theorem not_infix_sandwich (needle : List Char) {h : Char}
    (hhead : needle.head? = some h) {b mid a : List Char}
    (hb : safeScan needle b = true)
    (hmid : mid.all (fun c => c != h) = true) (ha : ¬ needle <:+: a) :
    ¬ needle <:+: (b ++ (mid ++ a)) := by
  induction b with
  | nil => simpa using not_infix_mid_append hhead hmid ha
  | cons c bs ih =>
    rw [safeScan, Bool.and_eq_true] at hb
    intro hinf
    rw [List.cons_append] at hinf
    rcases List.infix_cons_iff.mp hinf with hpre | hinf'
    · exact windowBlocked_blocks hb.1 (mid ++ a) (by simpa using hpre)
    · exact ih hb.2 hinf'

theorem infix_of_infix_left {sub a : List Char} (b : List Char) (h : sub <:+: a) :
    sub <:+: a ++ b :=
  h.trans (List.prefix_append a b).isInfix

theorem infix_of_infix_right {sub b : List Char} (a : List Char) (h : sub <:+: b) :
    sub <:+: a ++ b :=
  h.trans (List.suffix_append a b).isInfix

theorem foldl_max_range' (n : Nat) : ∀ a : Nat, (List.range' 1 n).foldl max a = max a n := by
  induction n with
  | zero => intro a; simp
  | succ k ih =>
    intro a
    rw [List.range'_1_concat, List.foldl_append, ih]
    simp only [List.foldl_cons, List.foldl_nil]
    omega

/-! ## Claim theorems -/

/-- Claim C1: a turn submission in which two or more of the eleven
directive-bearing fields are defined is rejected with a user-facing
validation error before any model-invocation call, and neither the
message list nor the artifact state is mutated. -/
theorem c1_multi_directive_rejected (threadId assistantId : Option String)
    (artifact : Option ArtifactV3) (selectedBlocks : Option String) (params : GraphInput)
    (h : 2 ≤ countDefinedFields (effectiveInput params selectedBlocks)) :
    (∃ description, streamMessageV2 threadId assistantId artifact selectedBlocks params
        = .rejected description) ∧
    modelInvocations (streamMessageV2 threadId assistantId artifact selectedBlocks params) = 0 ∧
    mutatesConversationState (streamMessageV2 threadId assistantId artifact selectedBlocks params)
      = false := by
  cases threadId with
  | none => exact ⟨⟨_, rfl⟩, rfl, rfl⟩
  | some t =>
    cases assistantId with
    | none => exact ⟨⟨_, rfl⟩, rfl, rfl⟩
    | some a =>
      have hrej : streamMessageV2 (some t) (some a) artifact selectedBlocks params
          = .rejected "Can not use multiple fields (quick actions, highlights, etc.) at once. Please try again." := by
        simp only [streamMessageV2]
        rw [if_pos h]
      exact ⟨⟨_, hrej⟩, by rw [hrej]; rfl, by rw [hrej]; rfl⟩

/-- Witness for C1 at a concrete turn carrying both `addComments` and
`fixBugs`. -/
theorem c1_multi_directive_rejected_witness :
    2 ≤ countDefinedFields (effectiveInput { addComments := some true, fixBugs := some true } none) ∧
    ((∃ description, streamMessageV2 (some "thread-1") (some "assistant-1") none none
        { addComments := some true, fixBugs := some true } = .rejected description) ∧
      modelInvocations (streamMessageV2 (some "thread-1") (some "assistant-1") none none
        { addComments := some true, fixBugs := some true }) = 0 ∧
      mutatesConversationState (streamMessageV2 (some "thread-1") (some "assistant-1") none none
        { addComments := some true, fixBugs := some true }) = false) :=
  ⟨by decide,
    c1_multi_directive_rejected (some "thread-1") (some "assistant-1") none none
      { addComments := some true, fixBugs := some true } (by decide)⟩

/-- Claim C2: on a document whose contents carry exactly the indices 1
through n, rewinding to an index k in that range changes only
`currentIndex` — the contents are untouched and the version at k is
retrievable — and a subsequent `appendVersion` allocates index n + 1,
appends the new content, sets `currentIndex` to n + 1, and leaves every
previously stored version, including the one at k, unchanged and
retrievable. -/
theorem c2_rewind_append_history (d : ArtifactV3) (n k : Nat) (c : ArtifactContent)
    (hmap : d.contents.map ArtifactContent.index = List.range' 1 n)
    (hk1 : 1 ≤ k) (hkn : k ≤ n) :
    (rewind d k).contents = d.contents ∧
    (rewind d k).currentIndex = k ∧
    getArtifactContent (rewind d k) = d.contents.find? (fun x => x.index == k) ∧
    (d.contents.find? (fun x => x.index == k)).isSome ∧
    (appendVersion (rewind d k) c).currentIndex = n + 1 ∧
    (appendVersion (rewind d k) c).contents = d.contents ++ [c.withIndex (n + 1)] ∧
    (∀ x ∈ d.contents, x ∈ (appendVersion (rewind d k) c).contents) ∧
    (appendVersion (rewind d k) c).contents.find? (fun x => x.index == k)
      = d.contents.find? (fun x => x.index == k) := by
  have hmax : maxIndex d = n := by
    rw [maxIndex, ← List.foldl_map ArtifactContent.index max d.contents 0, hmap,
      foldl_max_range']
    omega
  have hmaxr : maxIndex (rewind d k) = n := hmax
  have hfind : (d.contents.find? (fun x => x.index == k)).isSome := by
    have hkmem : k ∈ List.range' 1 n := by
      rw [List.mem_range'_1]
      omega
    rw [← hmap] at hkmem
    obtain ⟨x, hxmem, hxidx⟩ := List.mem_map.mp hkmem
    exact List.find?_isSome.mpr ⟨x, hxmem, by rw [hxidx, beq_self_eq_true]⟩
  obtain ⟨y, hy⟩ := Option.isSome_iff_exists.mp hfind
  refine ⟨rfl, rfl, rfl, hfind, ?_, ?_, ?_, ?_⟩
  · show maxIndex (rewind d k) + 1 = n + 1
    rw [hmaxr]
  · show d.contents ++ [c.withIndex (maxIndex (rewind d k) + 1)] = _
    rw [hmaxr]
  · intro x hx
    exact List.mem_append_left _ hx
  · show (d.contents ++ [c.withIndex (maxIndex (rewind d k) + 1)]).find?
        (fun x => x.index == k) = _
    rw [List.find?_append, hy]
    rfl

/-- Witness for C2 on a three-version document, rewound to version 1
and then appended to. -/
theorem c2_rewind_append_history_witness :
    ([ArtifactContent.text 1 "T" "one", .text 2 "T" "two", .text 3 "T" "three"].map
        ArtifactContent.index = List.range' 1 3) ∧
    (1 : Nat) ≤ 1 ∧ (1 : Nat) ≤ 3 ∧
    (appendVersion
        (rewind { currentIndex := 3,
                  contents := [ArtifactContent.text 1 "T" "one", .text 2 "T" "two",
                               .text 3 "T" "three"] } 1)
        (.text 0 "T" "four")).currentIndex = 4 ∧
    (appendVersion
        (rewind { currentIndex := 3,
                  contents := [ArtifactContent.text 1 "T" "one", .text 2 "T" "two",
                               .text 3 "T" "three"] } 1)
        (.text 0 "T" "four")).contents.find? (fun x => x.index == 1)
      = [ArtifactContent.text 1 "T" "one", .text 2 "T" "two",
         .text 3 "T" "three"].find? (fun x => x.index == 1) :=
  ⟨by decide, by decide, by decide,
    (c2_rewind_append_history
      { currentIndex := 3,
        contents := [ArtifactContent.text 1 "T" "one", .text 2 "T" "two",
                     .text 3 "T" "three"] } 3 1 (.text 0 "T" "four")
      (by decide) (by decide) (by decide)).2.2.2.2.1,
    (c2_rewind_append_history
      { currentIndex := 3,
        contents := [ArtifactContent.text 1 "T" "one", .text 2 "T" "two",
                     .text 3 "T" "three"] } 3 1 (.text 0 "T" "four")
      (by decide) (by decide) (by decide)).2.2.2.2.2.2.2⟩

/-- Counterexample to claim C3: a stored `styleRules` field that is
present but not a sequence — the empty string — is not coerced to the
one-element sequence of its string form; JavaScript truthiness drops it
and the reader defaults to the empty sequence instead. -/
theorem c3_falsy_field_counterexample :
    (JSVal.obj [("styleRules", .str "")]).getField "styleRules" = some (.str "") ∧
    (JSVal.str "").isArr = false ∧
    (normalizeStoredReflections (some (.obj [("styleRules", .str "")]))).styleRules = [] ∧
    ([] : List JSVal) ≠ [JSVal.str ((JSVal.str "").toStr)] :=
  ⟨rfl, rfl, rfl, fun h => List.noConfusion h⟩

/-- Claim C3 as amended: reads from the reflection store are normalized
with JavaScript truthiness — a field that is present, truthy and not a
sequence is coerced to the one-element sequence of its string form; a
present truthy sequence is taken as is; an absent or falsy field
defaults to the empty sequence; and unless the stored value itself is a
truthy object, both fields default to empty. -/
theorem c3_normalization_amended :
    (normalizeStoredReflections none = { styleRules := [], content := [] }) ∧
    (∀ v : JSVal, (v.truthy && v.typeofObject) = false →
      normalizeStoredReflections (some v) = { styleRules := [], content := [] }) ∧
    (∀ v f : JSVal, v.truthy = true → v.typeofObject = true →
      v.getField "styleRules" = some f → f.truthy = true → f.isArr = false →
      (normalizeStoredReflections (some v)).styleRules = [JSVal.str f.toStr]) ∧
    (∀ (v : JSVal) (elems : List JSVal), v.truthy = true → v.typeofObject = true →
      v.getField "styleRules" = some (.arr elems) →
      (normalizeStoredReflections (some v)).styleRules = elems) ∧
    (∀ v : JSVal, v.truthy = true → v.typeofObject = true →
      v.getField "styleRules" = none →
      (normalizeStoredReflections (some v)).styleRules = []) ∧
    (∀ v f : JSVal, v.truthy = true → v.typeofObject = true →
      v.getField "styleRules" = some f → f.truthy = false →
      (normalizeStoredReflections (some v)).styleRules = []) ∧
    (∀ v f : JSVal, v.truthy = true → v.typeofObject = true →
      v.getField "content" = some f → f.truthy = true → f.isArr = false →
      (normalizeStoredReflections (some v)).content = [JSVal.str f.toStr]) ∧
    (∀ (v : JSVal) (elems : List JSVal), v.truthy = true → v.typeofObject = true →
      v.getField "content" = some (.arr elems) →
      (normalizeStoredReflections (some v)).content = elems) ∧
    (∀ v : JSVal, v.truthy = true → v.typeofObject = true →
      v.getField "content" = none →
      (normalizeStoredReflections (some v)).content = []) ∧
    (∀ v f : JSVal, v.truthy = true → v.typeofObject = true →
      v.getField "content" = some f → f.truthy = false →
      (normalizeStoredReflections (some v)).content = []) := by
  refine ⟨rfl, ?_, ?_, ?_, ?_, ?_, ?_, ?_, ?_, ?_⟩
  · intro v hvf
    simp only [normalizeStoredReflections]
    rw [if_neg (by rw [hvf]; exact Bool.false_ne_true)]
  · intro v f hvt hvo hg hft hfa
    simp only [normalizeStoredReflections]
    rw [if_pos (by rw [hvt, hvo]; rfl), hg]
    cases f with
    | arr elems => simp [JSVal.isArr] at hfa
    | str s => dsimp only; rw [if_pos hft]
    | num n => dsimp only; rw [if_pos hft]
    | bool b => dsimp only; rw [if_pos hft]
    | null => dsimp only; rw [if_pos hft]
    | obj fields => dsimp only; rw [if_pos hft]
  · intro v elems hvt hvo hg
    simp only [normalizeStoredReflections]
    rw [if_pos (by rw [hvt, hvo]; rfl), hg]
    rfl
  · intro v hvt hvo hg
    simp only [normalizeStoredReflections]
    rw [if_pos (by rw [hvt, hvo]; rfl), hg]
  · intro v f hvt hvo hg hft
    simp only [normalizeStoredReflections]
    rw [if_pos (by rw [hvt, hvo]; rfl), hg]
    dsimp only
    rw [if_neg (by rw [hft]; exact Bool.false_ne_true)]
  · intro v f hvt hvo hg hft hfa
    simp only [normalizeStoredReflections]
    rw [if_pos (by rw [hvt, hvo]; rfl), hg]
    cases f with
    | arr elems => simp [JSVal.isArr] at hfa
    | str s => dsimp only; rw [if_pos hft]
    | num n => dsimp only; rw [if_pos hft]
    | bool b => dsimp only; rw [if_pos hft]
    | null => dsimp only; rw [if_pos hft]
    | obj fields => dsimp only; rw [if_pos hft]
  · intro v elems hvt hvo hg
    simp only [normalizeStoredReflections]
    rw [if_pos (by rw [hvt, hvo]; rfl), hg]
    rfl
  · intro v hvt hvo hg
    simp only [normalizeStoredReflections]
    rw [if_pos (by rw [hvt, hvo]; rfl), hg]
  · intro v f hvt hvo hg hft
    simp only [normalizeStoredReflections]
    rw [if_pos (by rw [hvt, hvo]; rfl), hg]
    dsimp only
    rw [if_neg (by rw [hft]; exact Bool.false_ne_true)]

/-- Witness for the amended C3: a truthy non-sequence field (a
non-empty string) is coerced to its one-element string form, and a
falsy one (the boolean false) defaults to empty. -/
theorem c3_normalization_amended_witness :
    (JSVal.obj [("styleRules", .str "Use headers."), ("content", .bool false)]).truthy = true ∧
    (normalizeStoredReflections
        (some (.obj [("styleRules", .str "Use headers."), ("content", .bool false)]))).styleRules
      = [JSVal.str "Use headers."] ∧
    (normalizeStoredReflections
        (some (.obj [("styleRules", .str "Use headers."), ("content", .bool false)]))).content
      = [] :=
  ⟨rfl,
    c3_normalization_amended.2.2.1
      (.obj [("styleRules", .str "Use headers."), ("content", .bool false)])
      (.str "Use headers.") rfl rfl rfl rfl rfl,
    c3_normalization_amended.2.2.2.2.2.2.2.2.2
      (.obj [("styleRules", .str "Use headers."), ("content", .bool false)])
      (.bool false) rfl rfl rfl rfl⟩

/-- Claim C4: when the model response carries the structured tool call,
the reflect node wholesale-replaces the stored reflections for the
assistant identity with the tool call's two fields (a subsequent get
sees exactly the new value); when no tool call is obtained, the node
fails with an error and the store is left untouched — no put is
issued. -/
theorem c4_reflect_store_update :
    (∀ (assistantId : String) (store : MemoryStore) (artifact : Option ArtifactV3)
        (messages : List ChatMsg) (toolCall : ReflectionToolArgs),
      reflect (some assistantId) store artifact messages (some toolCall) =
        { store := storePut store ["memories", assistantId] "reflection"
            (.obj [("styleRules", .arr (toolCall.styleRules.map JSVal.str)),
                   ("content", .arr (toolCall.content.map JSVal.str))])
          result := .ok {} } ∧
      storeGet (reflect (some assistantId) store artifact messages (some toolCall)).store
          ["memories", assistantId] "reflection" =
        some (.obj [("styleRules", .arr (toolCall.styleRules.map JSVal.str)),
                    ("content", .arr (toolCall.content.map JSVal.str))])) ∧
    (∀ (assistantId : String) (store : MemoryStore) (artifact : Option ArtifactV3)
        (messages : List ChatMsg),
      reflect (some assistantId) store artifact messages none =
        { store := store, result := .error "Reflection tool call failed." }) := by
  refine ⟨fun aid store art msgs tc => ⟨rfl, ?_⟩, fun aid store art msgs => rfl⟩
  show storeGet (storePut store ["memories", aid] "reflection" _) ["memories", aid] "reflection" = _
  simp [storeGet, storePut]

/-- Concrete scan facts about the no-artifact router template: splitting
it at the `recentMessages` slot yields a front part in which no
occurrence of the artifact-snapshot tag can start and a back part that
does not contain the tag but does contain the no-artifact
placeholder. -/
theorem routerNoArtifactFacts :
    (match splitAtFirst "{recentMessages}".data
        ((replaceFirst
            (replaceFirst ROUTE_QUERY_PROMPT "{artifactOptions}" ROUTE_QUERY_OPTIONS_NO_ARTIFACTS)
            "{currentArtifactPrompt}" NO_ARTIFACT_PROMPT).data) with
      | some (pre, post) =>
          safeScan "<artifact>".data pre
            && !(containsSubB "<artifact>".data post)
            && containsSubB NO_ARTIFACT_PROMPT.data post
      | none => false) = true := by rfl

/-- Claim C5: the router's output type has exactly the two intents, and
on every no-artifact input the routing prompt is the template with the
current-artifact slot filled by the no-artifact placeholder — in
particular (for any recent-messages text not itself containing a tag
opener) the built prompt contains no `<artifact>` snapshot section,
while it does contain the placeholder. -/
theorem c5_router_two_intents_no_snapshot :
    (∀ d : RouteDecision, d = .generateArtifact ∨ d = .respondToQuery) ∧
    (∀ recentMessages : String,
      buildRouterPrompt recentMessages none =
        replaceFirst
          (replaceFirst
            (replaceFirst ROUTE_QUERY_PROMPT "{artifactOptions}" ROUTE_QUERY_OPTIONS_NO_ARTIFACTS)
            "{currentArtifactPrompt}" NO_ARTIFACT_PROMPT)
          "{recentMessages}" recentMessages) ∧
    (∀ recentMessages : String,
      recentMessages.data.all (fun c => c != '<') = true →
      ¬ ("<artifact>".data <:+: (buildRouterPrompt recentMessages none).data) ∧
      NO_ARTIFACT_PROMPT.data <:+: (buildRouterPrompt recentMessages none).data) := by
  refine ⟨fun d => by cases d with
    | generateArtifact => exact Or.inl rfl
    | respondToQuery => exact Or.inr rfl, fun _ => rfl, ?_⟩
  intro msgs hmsgs
  have hfacts := routerNoArtifactFacts
  have hshape : (buildRouterPrompt msgs none).data
      = replaceFirstChars "{recentMessages}".data msgs.data
          ((replaceFirst
              (replaceFirst ROUTE_QUERY_PROMPT "{artifactOptions}" ROUTE_QUERY_OPTIONS_NO_ARTIFACTS)
              "{currentArtifactPrompt}" NO_ARTIFACT_PROMPT).data) := rfl
  cases hs : splitAtFirst "{recentMessages}".data
      ((replaceFirst
          (replaceFirst ROUTE_QUERY_PROMPT "{artifactOptions}" ROUTE_QUERY_OPTIONS_NO_ARTIFACTS)
          "{currentArtifactPrompt}" NO_ARTIFACT_PROMPT).data) with
  | none =>
    rw [hs] at hfacts
    exact absurd hfacts (by simp)
  | some prePost =>
    obtain ⟨pre, post⟩ := prePost
    rw [hs] at hfacts
    rw [Bool.and_eq_true, Bool.and_eq_true] at hfacts
    have h1 : safeScan "<artifact>".data pre = true := hfacts.1.1
    have h2 : containsSubB "<artifact>".data post = false := by
      have := hfacts.1.2
      revert this
      cases containsSubB "<artifact>".data post <;> simp
    have h3 : containsSubB NO_ARTIFACT_PROMPT.data post = true := hfacts.2
    constructor
    · rw [hshape]
      unfold replaceFirstChars
      rw [hs]
      dsimp only
      rw [List.append_assoc]
      exact not_infix_sandwich "<artifact>".data (h := '<') (by rfl) h1 hmsgs
        (containsSubB_false_sound h2)
    · rw [hshape]
      unfold replaceFirstChars
      rw [hs]
      dsimp only
      exact infix_of_infix_right (pre ++ msgs.data) (containsSubB_true_sound h3)

/-- Witness for C5 at a concrete no-artifact turn. -/
theorem c5_router_two_intents_no_snapshot_witness :
    ("What is the weather today?".data.all (fun c => c != '<') = true) ∧
    ¬ ("<artifact>".data <:+: (buildRouterPrompt "What is the weather today?" none).data) ∧
    NO_ARTIFACT_PROMPT.data <:+: (buildRouterPrompt "What is the weather today?" none).data :=
  ⟨by decide,
    (c5_router_two_intents_no_snapshot.2.2 "What is the weather today?" (by decide)).1,
    (c5_router_two_intents_no_snapshot.2.2 "What is the weather today?" (by decide)).2⟩

/-- Claim C7: formatting the empty reflections renders the explicit
placeholders for both sections and never an empty bulleted list (no
bullet is left without text). -/
theorem c7_empty_reflections_placeholders :
    formatReflections { styleRules := [], content := [] } false false =
      "The following is a list of style guidelines previously generated by you:\n<style-guidelines>\n- No style guidelines found.\n</style-guidelines>\n\nThe following is a list of memories/facts you previously generated about the user:\n<user-facts>\n- No memories/facts found.\n</user-facts>" ∧
    "No style guidelines found.".data <:+:
      (formatReflections { styleRules := [], content := [] } false false).data ∧
    "No memories/facts found.".data <:+:
      (formatReflections { styleRules := [], content := [] } false false).data ∧
    ¬ ("- \n".data <:+: (formatReflections { styleRules := [], content := [] } false false).data) :=
  ⟨by decide, by decide, by decide, by decide⟩

/-- Counterexample to claim C8: the reflect node — one of the listed
generation nodes — returns, on a successful run, the empty state delta:
no message is appended. -/
theorem c8_reflect_empty_delta_counterexample :
    (reflect (some "assistant-1") [] none []
        (some { styleRules := ["Keep sentences short."], content := ["The user likes pandas."] })).result
      = .ok { messages := [] } := rfl

/-- Claim C8 as amended: the generation nodes present in the sources
other than reflect return a delta carrying the model's reply
(generate-followup appends exactly that reply); reflect returns the
empty delta, its whole effect being the store update. -/
theorem c8_nodes_append_message_amended :
    (∀ (assistantId : String) (store : MemoryStore) (artifact : Option ArtifactV3)
        (messages : List ChatMsg) (modelResponse : ChatMsg),
      ∃ res, generateFollowup (some assistantId) store artifact messages modelResponse = .ok res ∧
        res.delta.messages = [modelResponse]) ∧
    (∀ (assistantId : String) (store : MemoryStore) (artifact : Option ArtifactV3)
        (messages : List ChatMsg) (toolCall : ReflectionToolArgs),
      (reflect (some assistantId) store artifact messages (some toolCall)).result
        = .ok { messages := [] }) :=
  ⟨fun _ _ _ _ _ => ⟨_, rfl, rfl⟩, fun _ _ _ _ _ => rfl⟩

/-- Counterexample to claim C9: the generate-followup node does not
interpolate a block containing both sections — it requests the
content-only formatting (`{ onlyContent: true }`), so both the block and
the node's assembled prompt contain the user-facts section but no
style-rules section. -/
theorem c9_followup_content_only_counterexample :
    ¬ ("<style-guidelines>".data <:+:
        (formatReflections
          { styleRules := [.str "Use headers."], content := [.str "Likes pandas."] }
          false true).data) ∧
    "<user-facts>".data <:+:
      (formatReflections
        { styleRules := [.str "Use headers."], content := [.str "Likes pandas."] }
        false true).data ∧
    ¬ ("<style-guidelines>".data <:+: (followupPrompt "assistant-1" [] none []).data) ∧
    "<user-facts>".data <:+: (followupPrompt "assistant-1" [] none []).data :=
  ⟨by decide, by decide,
    containsSubB_false_sound (by rfl),
    containsSubB_true_sound (by rfl)⟩

/-- Claim C9 as amended: each node interpolates the formatted
reflections block into its prompt template; the default block carries
both the style-rules section and the user-facts section (bulleted lists
or the explicit placeholders), but generate-followup requests the
content-only block, which carries the user-facts section and — for any
reflection texts not themselves containing a tag opener — no style-rules
section; the reflect node's own prompt carries both sections. -/
theorem c9_reflections_block_amended :
    (∀ r : ReflectionsVal,
      "<style-guidelines>".data <:+: (formatReflections r false false).data ∧
      "<user-facts>".data <:+: (formatReflections r false false).data) ∧
    (∀ r : ReflectionsVal,
      "<user-facts>".data <:+: (formatReflections r false true).data) ∧
    (∀ r : ReflectionsVal,
      (joinVals "\n- " r.content).data.all (fun c => c != '<') = true →
      ¬ ("<style-guidelines>".data <:+: (formatReflections r false true).data)) ∧
    (∀ (assistantId : String) (store : MemoryStore) (artifact : Option ArtifactV3)
        (messages : List ChatMsg) (modelResponse : ChatMsg),
      generateFollowup (some assistantId) store artifact messages modelResponse
        = .ok { prompt := followupPrompt assistantId store artifact messages
                delta := { messages := [modelResponse] } }) ∧
    ("<style-guidelines>".data <:+: (reflectSystemPrompt [] "assistant-1" none).data ∧
      "<user-facts>".data <:+: (reflectSystemPrompt [] "assistant-1" none).data) := by
  have hstyle : ∀ rules : List JSVal,
      "<style-guidelines>".data <:+: (reflectionStyleSection rules).data := by
    intro rules
    unfold reflectionStyleSection
    rw [String.data_append, String.data_append]
    exact infix_of_infix_left _ (infix_of_infix_left _ (by decide))
  have hfacts : ∀ content : List JSVal,
      "<user-facts>".data <:+: (reflectionContentSection content).data := by
    intro content
    unfold reflectionContentSection
    rw [String.data_append, String.data_append]
    exact infix_of_infix_left _ (infix_of_infix_left _ (by decide))
  refine ⟨?_, ?_, ?_, fun _ _ _ _ _ => rfl,
    containsSubB_true_sound (by rfl), containsSubB_true_sound (by rfl)⟩
  · intro r
    have hval : formatReflections r false false
        = reflectionStyleSection r.styleRules ++ "\n\n" ++ reflectionContentSection r.content := rfl
    rw [hval, String.data_append, String.data_append]
    exact ⟨infix_of_infix_left _ (infix_of_infix_left _ (hstyle r.styleRules)),
      infix_of_infix_right _ (hfacts r.content)⟩
  · intro r
    have hval : formatReflections r false true = reflectionContentSection r.content := rfl
    rw [hval]
    exact hfacts r.content
  · intro r hfree
    have hval : formatReflections r false true = reflectionContentSection r.content := rfl
    rw [hval]
    unfold reflectionContentSection
    rw [String.data_append, String.data_append, List.append_assoc]
    refine not_infix_sandwich "<style-guidelines>".data (h := '<')
      (by rfl) (by decide) ?_ (by decide)
    by_cases hc : r.content.length ≠ 0
    · rw [if_pos hc]
      exact hfree
    · rw [if_neg hc]
      decide

/-- Witness for the amended C9: a concrete content-only block built
from tag-free reflection texts carries no style-rules section. -/
theorem c9_reflections_block_amended_witness :
    ((joinVals "\n- " ([.str "Enjoys haiku."] : List JSVal)).data.all (fun c => c != '<') = true) ∧
    ¬ ("<style-guidelines>".data <:+:
        (formatReflections { styleRules := [], content := [.str "Enjoys haiku."] }
          false true).data) :=
  ⟨by decide,
    c9_reflections_block_amended.2.2.1
      { styleRules := [], content := [.str "Enjoys haiku."] } (by decide)⟩

/-- Claim C10: an artifact whose contents are a single element with an
empty body (empty `fullMarkdown` for text, empty `code` for code) never
reaches the debounced durable write — the persistence effect issues no
write for it. -/
theorem c10_empty_artifact_no_write (s : GraphEffectState) (art : ArtifactV3)
    (c : ArtifactContent) (hart : s.artifact = some art)
    (hcontents : art.contents = [c]) (hbody : c.body = "") :
    artifactPersistEffect s = .noWrite := by
  have hguard : emptyArtifactGuard art = true := by
    cases c with
    | text i t md =>
      have hmd : md = "" := hbody
      simp [emptyArtifactGuard, hcontents, hmd, ArtifactContent.isTextType, ArtifactContent.body]
    | code i t l cd =>
      have hcd : cd = "" := hbody
      simp [emptyArtifactGuard, hcontents, hcd, ArtifactContent.isTextType, ArtifactContent.body]
  cases hm : s.messages with
  | nil => simp [artifactPersistEffect, hm]
  | cons m ms =>
    cases ht : s.threadId with
    | none => simp [artifactPersistEffect, hm, hart, ht]
    | some tid =>
      by_cases hflags : (s.updateRenderedArtifactRequired || s.threadSwitched || s.isStreaming) = true
      · simp [artifactPersistEffect, hm, hart, ht, hflags]
      · cases hf : art.contents.find? (fun x => x.index == art.currentIndex) with
        | none => simp [artifactPersistEffect, hm, hart, ht, hflags, hf]
        | some y => simp [artifactPersistEffect, hm, hart, ht, hflags, hf, hguard]

/-- Witness for C10 at a freshly initialized empty text artifact, in a
state that would otherwise schedule a write (`lastSavedMatches` is
false and no suppression flag is set). -/
theorem c10_empty_artifact_no_write_witness :
    ({ messages := [{ role := "human", content := "hi" }],
       artifact := some { currentIndex := 1, contents := [.text 1 "Untitled" ""] },
       threadId := some "thread-1",
       updateRenderedArtifactRequired := false, threadSwitched := false,
       isStreaming := false, lastSavedMatches := false } : GraphEffectState).artifact
      = some { currentIndex := 1, contents := [.text 1 "Untitled" ""] } ∧
    ({ currentIndex := 1, contents := [.text 1 "Untitled" ""] } : ArtifactV3).contents
      = [.text 1 "Untitled" ""] ∧
    (ArtifactContent.text 1 "Untitled" "").body = "" ∧
    artifactPersistEffect
      { messages := [{ role := "human", content := "hi" }],
        artifact := some { currentIndex := 1, contents := [.text 1 "Untitled" ""] },
        threadId := some "thread-1",
        updateRenderedArtifactRequired := false, threadSwitched := false,
        isStreaming := false, lastSavedMatches := false } = .noWrite :=
  ⟨rfl, rfl, rfl,
    c10_empty_artifact_no_write _ _ (.text 1 "Untitled" "") rfl rfl rfl⟩

end OpenCanvas
